import Mathlib

/-!
# Graphics output plugin: bootstrap, geometry upload and render loop

A shallow embedding of `Solution/Visual API/Source/Output/Graphics.cpp`
(`IAUMGraphicsOutput::Run`, `InitializeGLFW`, `InitializeGLEW`).

The program talks only to external collaborators (GLFW, GLEW, OpenGL, the shader
compiler object and the logging front end).  Every such call is recorded, in program
order, as an `Event`; what the collaborators answer is read from an `Env`.  A run is a
value `Prog α`: the events issued so far plus how the run ended (returned a value, left
through a C++ exception, or still inside the render loop when the step budget ran out).
-/

namespace AUMGraphics

/-! ## Constants of the OpenGL / GLEW headers -/

def GL_FALSE : Nat := 0
def GL_TRIANGLES : Nat := 0x0004
def GL_FLOAT : Nat := 0x1406
def GL_COLOR_BUFFER_BIT : Nat := 0x00004000
def GL_MAJOR_VERSION : Nat := 0x821B
def GL_MINOR_VERSION : Nat := 0x821C
def GL_ARRAY_BUFFER : Nat := 0x8892
def GL_STATIC_DRAW : Nat := 0x88E4
def GLEW_OK : Nat := 0

/-- The value of `sizeof(float)`: 4 bytes (IEEE-754 binary32). -/
def sizeofFloat : Nat := 4

/-- The null pointer (`nullptr`, `NULL`); pointers are modelled by their address. -/
def NULL : Nat := 0

/-! ## Error taxonomy -/

/-- Codes of `AUMGraphicsErrorEnum::AUMEnum`, in the order of `enumStrings` in the
constructor of `IAUMGraphicsOutput`. -/
inductive AUMEnum
  | AUM_GRAPHICS_SUCCESS
  | GLFW
  | GLFW_WINDOW
  | GLEW
  deriving DecidableEq, Repr

/-- Codes of `AUMGraphicsErrorTypeEnum`, in the order of `enum2Strings`. -/
inductive AUMTypeEnum
  | INITIALIZATION
  deriving DecidableEq, Repr

/-- The array `enumStrings` of the constructor. -/
def enumStrings : List String := ["AUM_GRAPHICS_SUCCESS", "GLFW", "GLFW_WINDOW", "GLEW"]

/-- The array `enum2Strings` of the constructor, up to `enum2Size = 1`. -/
def enum2Strings : List String := ["INITIALIZATION"]

/-- Position of a code in its enumeration. -/
def AUMEnum.index : AUMEnum → Nat
  | .AUM_GRAPHICS_SUCCESS => 0
  | .GLFW => 1
  | .GLFW_WINDOW => 2
  | .GLEW => 3

/-- Position of a category in its enumeration. -/
def AUMTypeEnum.index : AUMTypeEnum → Nat
  | .INITIALIZATION => 0

/-- Modelled from the spec: the class `AUMGraphicsErrorEnum` is declared in `Graphics.h`,
which is not among the sources.  Its `Map` "maps a failure code to a human-readable
string": the code at position `i` is sent to the `i`-th name handed to the constructor. -/
def ErrorsMap (code : AUMEnum) : String := enumStrings.getD code.index ""

/-- Modelled from the spec: `AUMGraphicsErrorTypeEnum::Map`, as `ErrorsMap`, for the
failure categories. -/
def ErrorTypesMap (type : AUMTypeEnum) : String := enum2Strings.getD type.index ""

/-! ## Events -/

/-- The logging front ends used by the module. -/
inductive Logger
  | AUMPluginTrace
  | AUMPluginDebug
  | AUMPluginInfo
  | AUMAPIError
  deriving DecidableEq, Repr

/-- A positional argument of a log call. -/
inductive LogArg
  | str (s : String)
  | int (i : Int)
  deriving DecidableEq, Repr

/-- A `float` literal of the source: sign, decimal digits and number of decimals, so
that `-0.5f` is `⟨true, 5, 1⟩` and `-0.0f` is `⟨true, 0, 1⟩`. -/
structure FloatLit where
  negative : Bool
  mantissa : Nat
  decimals : Nat
  deriving DecidableEq, Repr

/-- The number a literal denotes. -/
def FloatLit.toRat (f : FloatLit) : ℚ :=
  if f.negative then -((f.mantissa : ℚ) / 10 ^ f.decimals) else (f.mantissa : ℚ) / 10 ^ f.decimals

/-- One call to an external collaborator, with the arguments passed. -/
inductive Event
  | glfwInit
  | glfwCreateWindow (width height : Nat) (title : String) (monitor share : Nat)
  | glfwTerminate
  | glfwMakeContextCurrent (window : Nat)
  | glGetIntegerv (pname : Nat)
  | glewInit
  | glGenBuffers (n : Nat)
  | glBindBuffer (target buffer : Nat)
  | glBufferData (target size : Nat) (data : List FloatLit) (usage : Nat)
  | glEnableVertexAttribArray (index : Nat)
  | glVertexAttribPointer (index size type normalized stride pointer : Nat)
  | CreateShader
  | glUseProgram (program : Nat)
  | glfwWindowShouldClose (window : Nat)
  | glClear (mask : Nat)
  | glDrawArrays (mode first count : Nat)
  | glfwSwapBuffers (window : Nat)
  | glfwPollEvents
  | glDeleteProgram (program : Nat)
  | log (logger : Logger) (template : String) (args : List LogArg)
  deriving DecidableEq, Repr

/-- Names of the external functions. -/
inductive Fn
  | glfwInit | glfwCreateWindow | glfwTerminate | glfwMakeContextCurrent | glGetIntegerv
  | glewInit | glGenBuffers | glBindBuffer | glBufferData | glEnableVertexAttribArray
  | glVertexAttribPointer | CreateShader | glUseProgram | glfwWindowShouldClose | glClear
  | glDrawArrays | glfwSwapBuffers | glfwPollEvents | glDeleteProgram | log
  deriving DecidableEq, Repr

/-- The function an event is a call of. -/
def Event.fn : Event → Fn
  | .glfwInit => .glfwInit
  | .glfwCreateWindow _ _ _ _ _ => .glfwCreateWindow
  | .glfwTerminate => .glfwTerminate
  | .glfwMakeContextCurrent _ => .glfwMakeContextCurrent
  | .glGetIntegerv _ => .glGetIntegerv
  | .glewInit => .glewInit
  | .glGenBuffers _ => .glGenBuffers
  | .glBindBuffer _ _ => .glBindBuffer
  | .glBufferData _ _ _ _ => .glBufferData
  | .glEnableVertexAttribArray _ => .glEnableVertexAttribArray
  | .glVertexAttribPointer _ _ _ _ _ _ => .glVertexAttribPointer
  | .CreateShader => .CreateShader
  | .glUseProgram _ => .glUseProgram
  | .glfwWindowShouldClose _ => .glfwWindowShouldClose
  | .glClear _ => .glClear
  | .glDrawArrays _ _ _ => .glDrawArrays
  | .glfwSwapBuffers _ => .glfwSwapBuffers
  | .glfwPollEvents => .glfwPollEvents
  | .glDeleteProgram _ => .glDeleteProgram
  | .log _ _ _ => .log

/-- The functions called along a trace, in order. -/
def fns (trace : List Event) : List Fn := trace.map Event.fn

/-- The library calls of a trace: everything but the log lines. -/
def calls (trace : List Event) : List Event := trace.filter (fun e => e.fn != .log)

/-- The log lines written through `AUMAPIError`. -/
def errorLogs (trace : List Event) : List Event :=
  trace.filter (fun e => match e with
    | .log .AUMAPIError _ _ => true
    | _ => false)

/-! ## Runs -/

/-- What a C++ `throw` carries: a code of the error enumeration, or anything else. -/
inductive Thrown
  | code (e : AUMEnum)
  | other (what : String)
  deriving DecidableEq, Repr

/-- How a run ended. `unfinished`: the step budget ran out inside the render loop. -/
inductive Outcome (α : Type)
  | returned (a : α)
  | thrown (e : Thrown)
  | unfinished
  deriving DecidableEq, Repr

/-- A run: the events issued, in order, and the outcome. -/
structure Prog (α : Type) where
  trace : List Event
  outcome : Outcome α
  deriving DecidableEq, Repr

/-- Sequencing: the second part runs only when the first returned. -/
def Prog.bind {α β : Type} (m : Prog α) (f : α → Prog β) : Prog β :=
  match m.outcome with
  | .returned a => ⟨m.trace ++ (f a).trace, (f a).outcome⟩
  | .thrown e => ⟨m.trace, .thrown e⟩
  | .unfinished => ⟨m.trace, .unfinished⟩

instance : Monad Prog where
  pure a := ⟨[], .returned a⟩
  bind := Prog.bind

/-- Issue one external call. -/
def call (e : Event) : Prog Unit := ⟨[e], .returned ()⟩

/-- Write one log line. -/
def log (logger : Logger) (template : String) (args : List LogArg) : Prog Unit :=
  call (.log logger template args)

/-- The C++ `throw` of an error code. -/
def throwCode {α : Type} (e : AUMEnum) : Prog α := ⟨[], .thrown (.code e)⟩

/-- The statement `try { body } catch (AUMEnum errorCatch) { handler }` followed by
`rest`, where `handler` ends in a `return`: a code thrown by `body` is handled and the
value of `handler` is the value of the function; anything else thrown by `body`
propagates; `rest` runs outside the `try`, so nothing it throws is caught. -/
def tryCatch {α β : Type} (body : Prog α) (handler : AUMEnum → Prog β) (rest : α → Prog β) :
    Prog β :=
  match body.outcome with
  | .returned a => ⟨body.trace ++ (rest a).trace, (rest a).outcome⟩
  | .thrown (.code e) => ⟨body.trace ++ (handler e).trace, (handler e).outcome⟩
  | .thrown (.other what) => ⟨body.trace, .thrown (.other what)⟩
  | .unfinished => ⟨body.trace, .unfinished⟩

/-- What the external collaborators answer during one run. -/
structure Env where
  /-- The member `Name` of the object. -/
  Name : String
  /-- Result of `glfwInit()`: zero (`GLFW_FALSE`) on failure. -/
  glfwInit : Int
  /-- Pointer returned by `glfwCreateWindow`: `NULL` on failure. -/
  glfwCreateWindow : Nat
  /-- Queryable state of the context: the value `glGetIntegerv` stores for `pname`. -/
  glGetIntegerv : Nat → Int
  /-- Result of `glewInit()`: `GLEW_OK` on success. -/
  glewInit : Nat
  /-- Buffer name stored by `glGenBuffers`. -/
  glGenBuffers : Nat
  /-- Result of `ShaderCompiler.CreateShader()`: a program, or what it throws. -/
  CreateShader : Except Thrown Nat
  /-- Answer of the `k`-th call (from 0) of `glfwWindowShouldClose`. -/
  glfwWindowShouldClose : Nat → Bool

/-! ## The program -/

/-- `IAUMGraphicsOutput::InitializeGLFW`. -/
def InitializeGLFW (env : Env) : Prog Nat :=
  call .glfwInit >>= fun _ =>
  (if env.glfwInit = 0 then
    throwCode .GLFW
  else
    log .AUMPluginDebug "GLFW initialized." []) >>= fun _ =>
  call (.glfwCreateWindow 640 480 "GLFW Init" NULL NULL) >>= fun _ =>
  let newWindow := env.glfwCreateWindow
  (if newWindow = NULL then
    call .glfwTerminate >>= fun _ =>
    throwCode .GLFW_WINDOW
  else
    log .AUMPluginDebug "Window using GLFW initialized." [] >>= fun _ =>
    call (.glfwMakeContextCurrent newWindow) >>= fun _ =>
    call (.glGetIntegerv GL_MAJOR_VERSION) >>= fun _ =>
    let major := env.glGetIntegerv GL_MAJOR_VERSION
    call (.glGetIntegerv GL_MAJOR_VERSION) >>= fun _ =>
    let minor := env.glGetIntegerv GL_MAJOR_VERSION
    log .AUMPluginDebug "GL version: {0}.{1}." [.int major, .int minor]) >>= fun _ =>
  pure newWindow

/-- `IAUMGraphicsOutput::InitializeGLEW`. -/
def InitializeGLEW (env : Env) : Prog Unit :=
  call .glewInit >>= fun _ =>
  if env.glewInit ≠ GLEW_OK then
    throwCode .GLEW
  else
    log .AUMPluginDebug "Glew initialized." []

/-- The array `positions` of the lambda `AssignBuffer`. -/
def positions : List FloatLit :=
  [⟨true, 5, 1⟩, ⟨true, 5, 1⟩,
   ⟨true, 0, 1⟩, ⟨false, 5, 1⟩,
   ⟨false, 5, 1⟩, ⟨true, 5, 1⟩]

/-- The lambda `AssignBuffer` of `Run`. -/
def AssignBuffer (env : Env) : Prog Unit :=
  call (.glGenBuffers 1) >>= fun _ =>
  let buffer := env.glGenBuffers
  call (.glBindBuffer GL_ARRAY_BUFFER buffer) >>= fun _ =>
  call (.glBufferData GL_ARRAY_BUFFER (6 * sizeofFloat) positions GL_STATIC_DRAW)

/-- The call `this->ShaderCompiler.CreateShader()`: one event, then the program or the
exception the compiler object produces. -/
def CreateShader (env : Env) : Prog Nat :=
  call .CreateShader >>= fun _ =>
  match env.CreateShader with
  | .ok program => pure program
  | .error e => ⟨[], .thrown e⟩

/-- The loop `while (!glfwWindowShouldClose(window)) { ... }` of `Run`; `k` counts the
calls of `glfwWindowShouldClose` made so far, `fuel` bounds the calls still allowed. -/
def renderLoop (env : Env) (window : Nat) : Nat → Nat → Prog Unit
  | 0, _ => ⟨[], .unfinished⟩
  | fuel + 1, k =>
    call (.glfwWindowShouldClose window) >>= fun _ =>
    if env.glfwWindowShouldClose k then
      pure ()
    else
      call (.glClear GL_COLOR_BUFFER_BIT) >>= fun _ =>
      call (.glDrawArrays GL_TRIANGLES 0 3) >>= fun _ =>
      call (.glfwSwapBuffers window) >>= fun _ =>
      call .glfwPollEvents >>= fun _ =>
      renderLoop env window fuel (k + 1)

/-- `IAUMGraphicsOutput::Run`; `fuel` bounds the number of `glfwWindowShouldClose`
calls. -/
def Run (env : Env) (fuel : Nat) : Prog Int :=
  -- StartMessage:
  log .AUMPluginTrace "----------------Plugin update----------------" [] >>= fun _ =>
  log .AUMPluginTrace "OpenGL:" [] >>= fun _ =>
  log .AUMPluginDebug "{0} is running." [.str env.Name] >>= fun _ =>
  -- Startup:
  tryCatch
    (InitializeGLFW env >>= fun window =>
     InitializeGLEW env >>= fun _ =>
     pure window)
    (fun errorCatch =>
      let error := ErrorsMap errorCatch
      let errorType := ErrorTypesMap .INITIALIZATION
      log .AUMAPIError "{0} failed during {1}." [.str error, .str errorType] >>= fun _ =>
      pure 0)
    (fun window =>
      -- Buffering:
      AssignBuffer env >>= fun _ =>
      call (.glEnableVertexAttribArray 0) >>= fun _ =>
      call (.glVertexAttribPointer 0 2 GL_FLOAT GL_FALSE (sizeofFloat * 2) 0) >>= fun _ =>
      call (.glBindBuffer GL_ARRAY_BUFFER 0) >>= fun _ =>
      -- Shader:
      CreateShader env >>= fun shader =>
      call (.glUseProgram shader) >>= fun _ =>
      -- Writing:
      renderLoop env window fuel 0 >>= fun _ =>
      call (.glDeleteProgram shader) >>= fun _ =>
      call .glfwTerminate >>= fun _ =>
      pure 0)

/-! ## Shapes of traces -/

/-- The three log lines of the label `StartMessage`. -/
def startTrace (env : Env) : List Event :=
  [.log .AUMPluginTrace "----------------Plugin update----------------" [],
   .log .AUMPluginTrace "OpenGL:" [],
   .log .AUMPluginDebug "{0} is running." [.str env.Name]]

/-- The line `AUMAPIError("{0} failed during {1}.", error, errorType)` of the handler,
for the caught code. -/
def errorLine (code : AUMEnum) : Event :=
  .log .AUMAPIError "{0} failed during {1}."
    [.str (ErrorsMap code), .str (ErrorTypesMap .INITIALIZATION)]

/-- The events of the labels `Startup` and `Buffering` on a successful bootstrap. -/
def bufferingTrace (env : Env) : List Event :=
  [.glfwInit,
   .log .AUMPluginDebug "GLFW initialized." [],
   .glfwCreateWindow 640 480 "GLFW Init" NULL NULL,
   .log .AUMPluginDebug "Window using GLFW initialized." [],
   .glfwMakeContextCurrent env.glfwCreateWindow,
   .glGetIntegerv GL_MAJOR_VERSION,
   .glGetIntegerv GL_MAJOR_VERSION,
   .log .AUMPluginDebug "GL version: {0}.{1}."
     [.int (env.glGetIntegerv GL_MAJOR_VERSION), .int (env.glGetIntegerv GL_MAJOR_VERSION)],
   .glewInit,
   .log .AUMPluginDebug "Glew initialized." [],
   .glGenBuffers 1,
   .glBindBuffer GL_ARRAY_BUFFER env.glGenBuffers,
   .glBufferData GL_ARRAY_BUFFER (6 * sizeofFloat) positions GL_STATIC_DRAW,
   .glEnableVertexAttribArray 0,
   .glVertexAttribPointer 0 2 GL_FLOAT GL_FALSE (sizeofFloat * 2) 0,
   .glBindBuffer GL_ARRAY_BUFFER 0]

/-- The four calls of one pass through the body of the render loop. -/
def iteration (window : Nat) : List Event :=
  [.glClear GL_COLOR_BUFFER_BIT, .glDrawArrays GL_TRIANGLES 0 3, .glfwSwapBuffers window,
   .glfwPollEvents]

/-- The trace of `n` passes of the loop: each is the close query, answered false, and
the four calls of the body. -/
def passes (window : Nat) : Nat → List Event
  | 0 => []
  | n + 1 => .glfwWindowShouldClose window :: iteration window ++ passes window n

/-- The trace of `n` repetitions of the body of the loop. -/
def iterations (window : Nat) : Nat → List Event
  | 0 => []
  | n + 1 => iteration window ++ iterations window n

/-- The functions of geometry upload, shader setup and the render loop. -/
def renderStage : List Fn :=
  [.glGenBuffers, .glBindBuffer, .glBufferData, .glEnableVertexAttribArray,
   .glVertexAttribPointer, .CreateShader, .glUseProgram, .glClear, .glDrawArrays,
   .glfwSwapBuffers, .glfwPollEvents]

/-- A run aborted by the bootstrap failure `code`: it returns 0, writes
exactly one error line, built from the name of `code` and the name of the category
`INITIALIZATION`, and calls none of the functions of `renderStage`. -/
def AbortedWith (run : Prog Int) (code : AUMEnum) : Prop :=
  run.outcome = .returned 0 ∧
  errorLogs run.trace =
    [.log .AUMAPIError "{0} failed during {1}."
      [.str (ErrorsMap code), .str (ErrorTypesMap .INITIALIZATION)]] ∧
  ∀ f, f ∈ renderStage → f ∉ fns run.trace

/-- The vertices of a buffer of interleaved `(x, y)` pairs, as numbers. -/
def vertices : List FloatLit → List (ℚ × ℚ)
  | x :: y :: rest => (x.toRat, y.toRat) :: vertices rest
  | _ => []

/-- The text of a log argument. -/
def LogArg.text : LogArg → String
  | .str s => s
  | .int i => toString i

/-- Positional formatting of the logging front end: a placeholder made of an opening
brace, one digit `i` and a closing brace stands for the `i`-th argument. -/
def renderChars (args : List LogArg) : List Char → List Char
  | [] => []
  | '\x7b' :: d :: '\x7d' :: rest =>
    if d.isDigit then
      (match args.get? (d.toNat - '0'.toNat) with
        | some a => a.text.toList
        | none => []) ++ renderChars args rest
    else
      '\x7b' :: renderChars args (d :: '\x7d' :: rest)
  | c :: rest => c :: renderChars args rest

/-- The line a log call writes. -/
def render (template : String) (args : List LogArg) : String :=
  String.mk (renderChars args template.toList)

/-- The lines written along a trace, in order. -/
def logLines (trace : List Event) : List String :=
  trace.filterMap (fun e => match e with
    | .log _ template args => some (render template args)
    | _ => none)

/-! ## Sample environments -/

/-- A context of version 4.6 on which everything succeeds; the window closes at the
third query. -/
def envOk : Env where
  Name := "Graphics"
  glfwInit := 1
  glfwCreateWindow := 77
  glGetIntegerv := fun pname =>
    if pname = GL_MAJOR_VERSION then 4 else if pname = GL_MINOR_VERSION then 6 else 0
  glewInit := GLEW_OK
  glGenBuffers := 1
  CreateShader := .ok 3
  glfwWindowShouldClose := fun k => decide (2 ≤ k)

/-- The window is created but `glewInit` reports a failure (code 1). -/
def envGlewFail : Env where
  Name := "Graphics"
  glfwInit := 1
  glfwCreateWindow := 77
  glGetIntegerv := fun pname =>
    if pname = GL_MAJOR_VERSION then 3 else if pname = GL_MINOR_VERSION then 3 else 0
  glewInit := 1
  glGenBuffers := 1
  CreateShader := .ok 3
  glfwWindowShouldClose := fun _ => true

/-- The library starts but `glfwCreateWindow` returns `NULL`. -/
def envWindowFail : Env where
  Name := "Graphics"
  glfwInit := 1
  glfwCreateWindow := NULL
  glGetIntegerv := fun _ => 0
  glewInit := GLEW_OK
  glGenBuffers := 1
  CreateShader := .ok 3
  glfwWindowShouldClose := fun _ => true

/-- The call `glfwInit` fails. -/
def envInitFail : Env where
  Name := "Graphics"
  glfwInit := 0
  glfwCreateWindow := 77
  glGetIntegerv := fun _ => 0
  glewInit := GLEW_OK
  glGenBuffers := 1
  CreateShader := .ok 3
  glfwWindowShouldClose := fun _ => true

/-- The bootstrap succeeds and `CreateShader` throws the code `GLFW`. -/
def envShaderFail : Env where
  Name := "Graphics"
  glfwInit := 1
  glfwCreateWindow := 77
  glGetIntegerv := fun _ => 3
  glewInit := GLEW_OK
  glGenBuffers := 1
  CreateShader := .error (.code .GLFW)
  glfwWindowShouldClose := fun _ => true

/-! ## Evaluation lemmas -/

@[simp] theorem bind_def {α β : Type} (m : Prog α) (f : α → Prog β) :
    (m >>= f) = Prog.bind m f := rfl

@[simp] theorem pure_def {α : Type} (a : α) : (pure a : Prog α) = ⟨[], .returned a⟩ := rfl

@[simp] theorem bind_returned {α β : Type} (t : List Event) (a : α) (f : α → Prog β) :
    Prog.bind ⟨t, .returned a⟩ f = ⟨t ++ (f a).trace, (f a).outcome⟩ := rfl

@[simp] theorem bind_thrown {α β : Type} (t : List Event) (e : Thrown) (f : α → Prog β) :
    Prog.bind ⟨t, .thrown e⟩ f = ⟨t, .thrown e⟩ := rfl

@[simp] theorem bind_unfinished {α β : Type} (t : List Event) (f : α → Prog β) :
    Prog.bind ⟨t, .unfinished⟩ f = ⟨t, .unfinished⟩ := rfl

theorem InitializeGLFW_initFail (env : Env) (h : env.glfwInit = 0) :
    InitializeGLFW env = ⟨[.glfwInit], .thrown (.code .GLFW)⟩ := by
  simp [InitializeGLFW, call, log, throwCode, h]

theorem InitializeGLFW_windowFail (env : Env) (h : env.glfwInit ≠ 0)
    (hw : env.glfwCreateWindow = NULL) :
    InitializeGLFW env =
      ⟨[.glfwInit, .log .AUMPluginDebug "GLFW initialized." [],
        .glfwCreateWindow 640 480 "GLFW Init" NULL NULL, .glfwTerminate],
       .thrown (.code .GLFW_WINDOW)⟩ := by
  simp [InitializeGLFW, call, log, throwCode, h, hw]

theorem InitializeGLFW_ok (env : Env) (h : env.glfwInit ≠ 0)
    (hw : env.glfwCreateWindow ≠ NULL) :
    InitializeGLFW env =
      ⟨[.glfwInit, .log .AUMPluginDebug "GLFW initialized." [],
        .glfwCreateWindow 640 480 "GLFW Init" NULL NULL,
        .log .AUMPluginDebug "Window using GLFW initialized." [],
        .glfwMakeContextCurrent env.glfwCreateWindow,
        .glGetIntegerv GL_MAJOR_VERSION, .glGetIntegerv GL_MAJOR_VERSION,
        .log .AUMPluginDebug "GL version: {0}.{1}."
          [.int (env.glGetIntegerv GL_MAJOR_VERSION), .int (env.glGetIntegerv GL_MAJOR_VERSION)]],
       .returned env.glfwCreateWindow⟩ := by
  simp [InitializeGLFW, call, log, throwCode, h, hw]

theorem InitializeGLEW_fail (env : Env) (h : env.glewInit ≠ GLEW_OK) :
    InitializeGLEW env = ⟨[.glewInit], .thrown (.code .GLEW)⟩ := by
  simp [InitializeGLEW, call, log, throwCode, h]

theorem InitializeGLEW_ok (env : Env) (h : env.glewInit = GLEW_OK) :
    InitializeGLEW env =
      ⟨[.glewInit, .log .AUMPluginDebug "Glew initialized." []], .returned ()⟩ := by
  simp [InitializeGLEW, call, log, throwCode, h]

theorem Run_initFail (env : Env) (fuel : Nat) (h : env.glfwInit = 0) :
    Run env fuel = ⟨startTrace env ++ [.glfwInit, errorLine .GLFW], .returned 0⟩ := by
  simp [Run, InitializeGLFW_initFail env h, tryCatch, call, log, startTrace, errorLine]

theorem Run_windowFail (env : Env) (fuel : Nat) (h : env.glfwInit ≠ 0)
    (hw : env.glfwCreateWindow = NULL) :
    Run env fuel =
      ⟨startTrace env ++ [.glfwInit, .log .AUMPluginDebug "GLFW initialized." [],
        .glfwCreateWindow 640 480 "GLFW Init" NULL NULL, .glfwTerminate,
        errorLine .GLFW_WINDOW], .returned 0⟩ := by
  simp [Run, InitializeGLFW_windowFail env h hw, tryCatch, call, log, startTrace, errorLine]

theorem Run_glewFail (env : Env) (fuel : Nat) (h : env.glfwInit ≠ 0)
    (hw : env.glfwCreateWindow ≠ NULL) (hg : env.glewInit ≠ GLEW_OK) :
    Run env fuel =
      ⟨startTrace env ++ [.glfwInit, .log .AUMPluginDebug "GLFW initialized." [],
        .glfwCreateWindow 640 480 "GLFW Init" NULL NULL,
        .log .AUMPluginDebug "Window using GLFW initialized." [],
        .glfwMakeContextCurrent env.glfwCreateWindow,
        .glGetIntegerv GL_MAJOR_VERSION, .glGetIntegerv GL_MAJOR_VERSION,
        .log .AUMPluginDebug "GL version: {0}.{1}."
          [.int (env.glGetIntegerv GL_MAJOR_VERSION),
           .int (env.glGetIntegerv GL_MAJOR_VERSION)],
        .glewInit, errorLine .GLEW], .returned 0⟩ := by
  simp [Run, InitializeGLFW_ok env h hw, InitializeGLEW_fail env hg, tryCatch, call, log,
    startTrace, errorLine]

theorem Run_shaderFail (env : Env) (fuel : Nat) (e : Thrown) (h : env.glfwInit ≠ 0)
    (hw : env.glfwCreateWindow ≠ NULL) (hg : env.glewInit = GLEW_OK)
    (hs : env.CreateShader = .error e) :
    Run env fuel = ⟨startTrace env ++ bufferingTrace env ++ [.CreateShader], .thrown e⟩ := by
  simp [Run, InitializeGLFW_ok env h hw, InitializeGLEW_ok env hg, tryCatch, call, log,
    startTrace, bufferingTrace, AssignBuffer, CreateShader, hs]

theorem Run_ok (env : Env) (fuel program : Nat) (h : env.glfwInit ≠ 0)
    (hw : env.glfwCreateWindow ≠ NULL) (hg : env.glewInit = GLEW_OK)
    (hs : env.CreateShader = .ok program) :
    Run env fuel =
      Prog.bind ⟨startTrace env ++ bufferingTrace env ++ [.CreateShader, .glUseProgram program],
          .returned ()⟩
        (fun _ => Prog.bind (renderLoop env env.glfwCreateWindow fuel 0)
          (fun _ => ⟨[.glDeleteProgram program, .glfwTerminate], .returned 0⟩)) := by
  simp [Run, InitializeGLFW_ok env h hw, InitializeGLEW_ok env hg, tryCatch, call, log,
    startTrace, bufferingTrace, AssignBuffer, CreateShader, hs]

/-- With the close signal answered false `n` times from query `k` on and then true, and
budget for more than `n` queries, the loop makes exactly `n` passes and returns. -/
theorem renderLoop_closes (env : Env) (window : Nat) :
    ∀ (n fuel k : Nat), (∀ i, i < n → env.glfwWindowShouldClose (k + i) = false) →
      env.glfwWindowShouldClose (k + n) = true → n < fuel →
      renderLoop env window fuel k =
        ⟨passes window n ++ [.glfwWindowShouldClose window], .returned ()⟩ := by
  intro n
  induction n with
  | zero =>
    intro fuel k _ ht hf
    obtain ⟨f, rfl⟩ : ∃ f, fuel = f + 1 := ⟨fuel - 1, by omega⟩
    have ht0 : env.glfwWindowShouldClose k = true := by simpa using ht
    simp [renderLoop, call, ht0, passes]
  | succ n ih =>
    intro fuel k hfalse ht hf
    obtain ⟨f, rfl⟩ : ∃ f, fuel = f + 1 := ⟨fuel - 1, by omega⟩
    have h0 : env.glfwWindowShouldClose k = false := by simpa using hfalse 0 (by omega)
    have hrec := ih f (k + 1)
      (fun i hi => by
        have := hfalse (i + 1) (by omega)
        rwa [show k + (i + 1) = k + 1 + i by omega] at this)
      (by rwa [show k + (n + 1) = k + 1 + n by omega] at ht)
      (by omega)
    simp [renderLoop, call, h0, hrec, passes, iteration]

/-- Whatever the answers and the budget, the loop issues only its own five calls. -/
theorem renderLoop_events (env : Env) (window : Nat) :
    ∀ (fuel k : Nat) (e : Event), e ∈ (renderLoop env window fuel k).trace →
      e ∈ Event.glfwWindowShouldClose window :: iteration window := by
  intro fuel
  induction fuel with
  | zero => intro k e he; simp [renderLoop] at he
  | succ f ih =>
    intro k e he
    cases hc : env.glfwWindowShouldClose k with
    | true =>
      simp [renderLoop, call, hc] at he
      simp [he]
    | false =>
      simp only [renderLoop, call, hc, bind_def, bind_returned] at he
      simp at he
      rcases he with he | he | he | he | he | he
      · simp [he]
      · simp [he, iteration]
      · simp [he, iteration]
      · simp [he, iteration]
      · simp [he, iteration]
      · exact ih (k + 1) e he

/-- The whole run when the bootstrap and the shader succeed and the close signal is
answered true for the first time at query `n`, within the budget. -/
theorem Run_closes (env : Env) (n fuel program : Nat) (h : env.glfwInit ≠ 0)
    (hw : env.glfwCreateWindow ≠ NULL) (hg : env.glewInit = GLEW_OK)
    (hs : env.CreateShader = .ok program)
    (hfalse : ∀ i, i < n → env.glfwWindowShouldClose i = false)
    (htrue : env.glfwWindowShouldClose n = true) (hfuel : n < fuel) :
    Run env fuel =
      ⟨startTrace env ++ bufferingTrace env ++ [.CreateShader, .glUseProgram program] ++
        passes env.glfwCreateWindow n ++
        [.glfwWindowShouldClose env.glfwCreateWindow, .glDeleteProgram program,
         .glfwTerminate], .returned 0⟩ := by
  have hloop := renderLoop_closes env env.glfwCreateWindow n fuel 0
    (fun i hi => by simpa using hfalse i hi) (by simpa using htrue) hfuel
  rw [Run_ok env fuel program h hw hg hs, hloop]
  simp

/-- On a successful bootstrap, whatever the shader compiler, the close answers and the
budget, the trace of `Run` is the start and buffering events, the `CreateShader` call,
and then only program activation, loop calls and teardown. -/
theorem Run_bootstrapped (env : Env) (fuel : Nat) (h : env.glfwInit ≠ 0)
    (hw : env.glfwCreateWindow ≠ NULL) (hg : env.glewInit = GLEW_OK) :
    ∃ rest, (Run env fuel).trace = startTrace env ++ bufferingTrace env ++ .CreateShader :: rest ∧
      ∀ e, e ∈ rest → e.fn ∈ [Fn.glUseProgram, .glfwWindowShouldClose, .glClear,
        .glDrawArrays, .glfwSwapBuffers, .glfwPollEvents, .glDeleteProgram, .glfwTerminate] := by
  cases hs : env.CreateShader with
  | error e =>
    exact ⟨[], by rw [Run_shaderFail env fuel e h hw hg hs], by simp⟩
  | ok program =>
    have hev := renderLoop_events env env.glfwCreateWindow fuel 0
    have hloop : ∀ e, e ∈ (renderLoop env env.glfwCreateWindow fuel 0).trace →
        e.fn ∈ [Fn.glUseProgram, .glfwWindowShouldClose, .glClear,
          .glDrawArrays, .glfwSwapBuffers, .glfwPollEvents, .glDeleteProgram,
          .glfwTerminate] := by
      intro e he
      have := hev e he
      simp [iteration] at this
      rcases this with rfl | rfl | rfl | rfl | rfl <;> simp [Event.fn]
    rw [Run_ok env fuel program h hw hg hs]
    rcases hr : renderLoop env env.glfwCreateWindow fuel 0 with ⟨t, o⟩
    rw [hr] at hloop
    cases o with
    | returned u =>
      refine ⟨.glUseProgram program :: (t ++ [.glDeleteProgram program, .glfwTerminate]),
        by simp, ?_⟩
      intro e he
      simp at he
      rcases he with rfl | he | rfl | rfl
      · simp [Event.fn]
      · exact hloop e he
      · simp [Event.fn]
      · simp [Event.fn]
    | thrown e =>
      refine ⟨.glUseProgram program :: t, by simp, ?_⟩
      intro e he
      simp at he
      rcases he with rfl | he
      · simp [Event.fn]
      · exact hloop e he
    | unfinished =>
      refine ⟨.glUseProgram program :: t, by simp, ?_⟩
      intro e he
      simp at he
      rcases he with rfl | he
      · simp [Event.fn]
      · exact hloop e he

/-- A list that starts with `front` and is split at an event not in `front` has `front`
as the start of the part before the split. -/
theorem front_before_split (d : Event) :
    ∀ (front rest pre post : List Event), front ++ rest = pre ++ d :: post → d ∉ front →
      ∃ mid, pre = front ++ mid := by
  intro front
  induction front with
  | nil => intro rest pre post _ _; exact ⟨pre, rfl⟩
  | cons a front ih =>
    intro rest pre post heq hd
    cases pre with
    | nil =>
      simp at heq
      exact absurd heq.1.symm (fun hda => hd (by simp [hda]))
    | cons b pre =>
      simp at heq
      obtain ⟨mid, hmid⟩ := ih rest pre post heq.2 (fun hmem => hd (by simp [hmem]))
      exact ⟨mid, by simp [heq.1, hmid]⟩

theorem count_passes (window : Nat) (f : Fn) :
    ∀ n, (fns (passes window n)).count f =
      n * (fns (.glfwWindowShouldClose window :: iteration window)).count f := by
  intro n
  induction n with
  | zero => simp [passes, fns]
  | succ n ih =>
    simp only [fns, passes, List.map_cons, List.map_append, List.count_cons,
      List.count_append] at ih ⊢
    rw [ih]
    ring

theorem filter_passes (window : Nat) :
    ∀ n, (passes window n).filter (fun e => e.fn != .glfwWindowShouldClose) =
      iterations window n := by
  intro n
  induction n with
  | zero => rfl
  | succ n ih =>
    simp only [passes, iterations, List.filter_cons, List.filter_append, ih]
    simp [iteration, Event.fn]

/-! ## Bootstrap failures -/

/-- C1, evaluated on the code: with `glfwInit` succeeding, a window created and
`glewInit` reporting a failure, `Run` logs the error and returns 0 without ever calling
`glfwTerminate`, although the window was created and made current. -/
theorem glewFailure_skips_glfwTerminate :
    ∀ fuel : Nat,
      (Run envGlewFail fuel).outcome = .returned 0 ∧
      Event.glfwMakeContextCurrent 77 ∈ (Run envGlewFail fuel).trace ∧
      errorLogs (Run envGlewFail fuel).trace = [errorLine .GLEW] ∧
      Event.glfwTerminate ∉ (Run envGlewFail fuel).trace := by
  intro fuel
  rw [Run_glewFail envGlewFail fuel (by decide) (by decide) (by decide)]
  decide

/-- C2: when `glfwInit` succeeds and `glfwCreateWindow` returns `NULL`, `InitializeGLFW`
throws `Errors.GLFW_WINDOW`; its library calls are exactly `glfwInit`,
`glfwCreateWindow(640, 480, "GLFW Init", NULL, NULL)`, `glfwTerminate` (with the one debug
line "GLFW initialized." written after `glfwInit`), so `glfwTerminate` is the last event
before the throw and neither `glfwMakeContextCurrent` nor `glGetIntegerv` is called. -/
theorem windowFailure_terminates_glfw (env : Env) (hInit : env.glfwInit ≠ 0)
    (hWindow : env.glfwCreateWindow = NULL) :
    (InitializeGLFW env).outcome = .thrown (.code .GLFW_WINDOW) ∧
    calls (InitializeGLFW env).trace =
      [.glfwInit, .glfwCreateWindow 640 480 "GLFW Init" NULL NULL, .glfwTerminate] ∧
    (InitializeGLFW env).trace =
      [.glfwInit, .log .AUMPluginDebug "GLFW initialized." [],
       .glfwCreateWindow 640 480 "GLFW Init" NULL NULL, .glfwTerminate] ∧
    Fn.glfwMakeContextCurrent ∉ fns (InitializeGLFW env).trace ∧
    Fn.glGetIntegerv ∉ fns (InitializeGLFW env).trace := by
  rw [InitializeGLFW_windowFail env hInit hWindow]
  decide

theorem windowFailure_terminates_glfw_witness :
    envWindowFail.glfwInit ≠ 0 ∧ envWindowFail.glfwCreateWindow = NULL ∧
    (InitializeGLFW envWindowFail).outcome = .thrown (.code .GLFW_WINDOW) ∧
    calls (InitializeGLFW envWindowFail).trace =
      [.glfwInit, .glfwCreateWindow 640 480 "GLFW Init" NULL NULL, .glfwTerminate] :=
  have h := windowFailure_terminates_glfw envWindowFail (by decide) (by decide)
  ⟨by decide, by decide, h.1, h.2.1⟩

/-- C3: when `glfwInit` fails, `InitializeGLFW` throws `Errors.GLFW` having called nothing
but `glfwInit`, and the trace of `Run` contains no `glfwCreateWindow`, no
`glfwMakeContextCurrent` and no `glewInit`: its only library call is `glfwInit`. -/
theorem initFailure_stops_bootstrap (env : Env) (fuel : Nat) (hInit : env.glfwInit = 0) :
    InitializeGLFW env = ⟨[.glfwInit], .thrown (.code .GLFW)⟩ ∧
    calls (Run env fuel).trace = [.glfwInit] ∧
    Fn.glfwCreateWindow ∉ fns (Run env fuel).trace ∧
    Fn.glfwMakeContextCurrent ∉ fns (Run env fuel).trace ∧
    Fn.glewInit ∉ fns (Run env fuel).trace := by
  rw [InitializeGLFW_initFail env hInit, Run_initFail env fuel hInit]
  simp [calls, fns, startTrace, errorLine, Event.fn]

theorem initFailure_stops_bootstrap_witness :
    envInitFail.glfwInit = 0 ∧
    InitializeGLFW envInitFail = ⟨[.glfwInit], .thrown (.code .GLFW)⟩ ∧
    calls (Run envInitFail 4).trace = [.glfwInit] ∧
    Fn.glfwCreateWindow ∉ fns (Run envInitFail 4).trace ∧
    Fn.glfwMakeContextCurrent ∉ fns (Run envInitFail 4).trace ∧
    Fn.glewInit ∉ fns (Run envInitFail 4).trace :=
  ⟨by decide, initFailure_stops_bootstrap envInitFail 4 (by decide)⟩

/-- C4: each of the three bootstrap failures (`glfwInit` fails; `glfwCreateWindow`
returns `NULL`; `glewInit` does not return `GLEW_OK`) makes `Run` return 0 with exactly
one error line, for the code raised, and none of the geometry, shader or render-loop
calls. -/
theorem bootstrapFailure_aborts_run (env : Env) (fuel : Nat) :
    (env.glfwInit = 0 → AbortedWith (Run env fuel) .GLFW) ∧
    (env.glfwInit ≠ 0 → env.glfwCreateWindow = NULL →
      AbortedWith (Run env fuel) .GLFW_WINDOW) ∧
    (env.glfwInit ≠ 0 → env.glfwCreateWindow ≠ NULL → env.glewInit ≠ GLEW_OK →
      AbortedWith (Run env fuel) .GLEW) := by
  refine ⟨fun h => ?_, fun h hw => ?_, fun h hw hg => ?_⟩
  · rw [Run_initFail env fuel h]
    refine ⟨rfl, by simp [errorLogs, startTrace, errorLine], ?_⟩
    intro f hf
    simp [renderStage] at hf
    rcases hf with rfl | rfl | rfl | rfl | rfl | rfl | rfl | rfl | rfl | rfl | rfl <;>
      simp [fns, startTrace, errorLine, Event.fn]
  · rw [Run_windowFail env fuel h hw]
    refine ⟨rfl, by simp [errorLogs, startTrace, errorLine], ?_⟩
    intro f hf
    simp [renderStage] at hf
    rcases hf with rfl | rfl | rfl | rfl | rfl | rfl | rfl | rfl | rfl | rfl | rfl <;>
      simp [fns, startTrace, errorLine, Event.fn]
  · rw [Run_glewFail env fuel h hw hg]
    refine ⟨rfl, by simp [errorLogs, startTrace, errorLine], ?_⟩
    intro f hf
    simp [renderStage] at hf
    rcases hf with rfl | rfl | rfl | rfl | rfl | rfl | rfl | rfl | rfl | rfl | rfl <;>
      simp [fns, startTrace, errorLine, Event.fn]

theorem bootstrapFailure_aborts_run_witness :
    AbortedWith (Run envInitFail 4) .GLFW ∧
    AbortedWith (Run envWindowFail 4) .GLFW_WINDOW ∧
    AbortedWith (Run envGlewFail 4) .GLEW :=
  ⟨(bootstrapFailure_aborts_run envInitFail 4).1 (by decide),
   (bootstrapFailure_aborts_run envWindowFail 4).2.1 (by decide) (by decide),
   (bootstrapFailure_aborts_run envGlewFail 4).2.2 (by decide) (by decide) (by decide)⟩

/-! ## The render loop and shutdown -/

/-- C5: after a successful bootstrap (shader included), if `glfwWindowShouldClose`
answers false `n` times and then true, the loop returns after exactly `n` passes: its
trace is `n` times the close query followed by `glClear(GL_COLOR_BUFFER_BIT)`,
`glDrawArrays(GL_TRIANGLES, 0, 3)`, `glfwSwapBuffers(window)`, `glfwPollEvents`, and
then the one query answered true; without the queries it is `n` repetitions of the four
calls.  In the whole run nothing but `glDeleteProgram` and `glfwTerminate` follows that
last query, each of the four calls occurs `n` times, and `glGenBuffers` (for one buffer)
and `CreateShader` are called exactly once. -/
theorem renderLoop_exactly_n_passes (env : Env) (n fuel program : Nat)
    (hInit : env.glfwInit ≠ 0) (hWindow : env.glfwCreateWindow ≠ NULL)
    (hGlew : env.glewInit = GLEW_OK) (hShader : env.CreateShader = .ok program)
    (hfalse : ∀ i, i < n → env.glfwWindowShouldClose i = false)
    (htrue : env.glfwWindowShouldClose n = true) (hfuel : n < fuel) :
    renderLoop env env.glfwCreateWindow fuel 0 =
      ⟨passes env.glfwCreateWindow n ++ [.glfwWindowShouldClose env.glfwCreateWindow],
       .returned ()⟩ ∧
    (passes env.glfwCreateWindow n).filter (fun e => e.fn != .glfwWindowShouldClose) =
      iterations env.glfwCreateWindow n ∧
    (Run env fuel).trace =
      startTrace env ++ bufferingTrace env ++ [.CreateShader, .glUseProgram program] ++
        passes env.glfwCreateWindow n ++
        [.glfwWindowShouldClose env.glfwCreateWindow, .glDeleteProgram program,
         .glfwTerminate] ∧
    (fns (Run env fuel).trace).count .glfwWindowShouldClose = n + 1 ∧
    (fns (Run env fuel).trace).count .glClear = n ∧
    (fns (Run env fuel).trace).count .glDrawArrays = n ∧
    (fns (Run env fuel).trace).count .glfwSwapBuffers = n ∧
    (fns (Run env fuel).trace).count .glfwPollEvents = n ∧
    (fns (Run env fuel).trace).count .glGenBuffers = 1 ∧
    Event.glGenBuffers 1 ∈ (Run env fuel).trace ∧
    (fns (Run env fuel).trace).count .CreateShader = 1 := by
  have hloop := renderLoop_closes env env.glfwCreateWindow n fuel 0
    (fun i hi => by simpa using hfalse i hi) (by simpa using htrue) hfuel
  have hcount : ∀ f, (fns (Run env fuel).trace).count f =
      (fns (startTrace env ++ bufferingTrace env ++
        [.CreateShader, .glUseProgram program])).count f +
      n * (fns (.glfwWindowShouldClose env.glfwCreateWindow ::
        iteration env.glfwCreateWindow)).count f +
      (fns [.glfwWindowShouldClose env.glfwCreateWindow, .glDeleteProgram program,
        .glfwTerminate]).count f := by
    intro f
    rw [Run_closes env n fuel program hInit hWindow hGlew hShader hfalse htrue hfuel,
      ← count_passes]
    simp only [fns, List.map_append, List.count_append]
  refine ⟨hloop, filter_passes _ n, ?_, ?_, ?_, ?_, ?_, ?_, ?_, ?_, ?_⟩
  · rw [Run_closes env n fuel program hInit hWindow hGlew hShader hfalse htrue hfuel]
  · rw [hcount]; simp [fns, startTrace, bufferingTrace, iteration, Event.fn]
  · rw [hcount]; simp [fns, startTrace, bufferingTrace, iteration, Event.fn]
  · rw [hcount]; simp [fns, startTrace, bufferingTrace, iteration, Event.fn]
  · rw [hcount]; simp [fns, startTrace, bufferingTrace, iteration, Event.fn]
  · rw [hcount]; simp [fns, startTrace, bufferingTrace, iteration, Event.fn]
  · rw [hcount]; simp [fns, startTrace, bufferingTrace, iteration, Event.fn]
  · rw [Run_closes env n fuel program hInit hWindow hGlew hShader hfalse htrue hfuel]
    simp [bufferingTrace]
  · rw [hcount]; simp [fns, startTrace, bufferingTrace, iteration, Event.fn]

theorem renderLoop_exactly_n_passes_witness :
    renderLoop envOk 77 5 0 =
      ⟨passes 77 2 ++ [.glfwWindowShouldClose 77], .returned ()⟩ ∧
    (fns (Run envOk 5).trace).count .glDrawArrays = 2 ∧
    (fns (Run envOk 5).trace).count .glGenBuffers = 1 ∧
    (fns (Run envOk 5).trace).count .CreateShader = 1 :=
  have h := renderLoop_exactly_n_passes envOk 2 5 3 (by decide) (by decide) (by decide) rfl
    (by decide) (by decide) (by decide)
  ⟨h.1, h.2.2.2.2.2.1, h.2.2.2.2.2.2.2.2.1, h.2.2.2.2.2.2.2.2.2.2⟩

/-- C6: in every trace of `Run`, for every environment and every budget, whatever comes
before a `glDrawArrays` call starts with the whole of the start, bootstrap and buffering
events, the `CreateShader` call and `glUseProgram` on the program it returned; so the
draw is preceded by `glGenBuffers`, `glBindBuffer(GL_ARRAY_BUFFER, buffer)`,
`glBufferData`, `glEnableVertexAttribArray(0)`, `glVertexAttribPointer` for index 0,
`CreateShader` and `glUseProgram(program)`. -/
theorem draw_preceded_by_setup (env : Env) (fuel : Nat) (pre post : List Event)
    (mode first count : Nat)
    (hsplit : (Run env fuel).trace = pre ++ .glDrawArrays mode first count :: post) :
    ∃ program, env.CreateShader = .ok program ∧
      (∃ mid, pre = startTrace env ++ bufferingTrace env ++
        [.CreateShader, .glUseProgram program] ++ mid) ∧
      Event.glGenBuffers 1 ∈ pre ∧
      Event.glBindBuffer GL_ARRAY_BUFFER env.glGenBuffers ∈ pre ∧
      Event.glBufferData GL_ARRAY_BUFFER (6 * sizeofFloat) positions GL_STATIC_DRAW ∈ pre ∧
      Event.glEnableVertexAttribArray 0 ∈ pre ∧
      Event.glVertexAttribPointer 0 2 GL_FLOAT GL_FALSE (sizeofFloat * 2) 0 ∈ pre ∧
      Event.CreateShader ∈ pre ∧
      Event.glUseProgram program ∈ pre := by
  have hmem : Event.glDrawArrays mode first count ∈ (Run env fuel).trace := by
    rw [hsplit]; simp
  by_cases h : env.glfwInit = 0
  · rw [Run_initFail env fuel h] at hmem
    simp [startTrace, errorLine] at hmem
  by_cases hw : env.glfwCreateWindow = NULL
  · rw [Run_windowFail env fuel h hw] at hmem
    simp [startTrace, errorLine] at hmem
  by_cases hg : env.glewInit = GLEW_OK
  swap
  · rw [Run_glewFail env fuel h hw hg] at hmem
    simp [startTrace, errorLine] at hmem
  cases hs : env.CreateShader with
  | error e =>
    rw [Run_shaderFail env fuel e h hw hg hs] at hmem
    simp [startTrace, bufferingTrace] at hmem
  | ok program =>
    have hfront : ∃ rest, (Run env fuel).trace =
        (startTrace env ++ bufferingTrace env ++ [.CreateShader, .glUseProgram program]) ++
          rest := by
      rw [Run_ok env fuel program h hw hg hs]
      rcases renderLoop env env.glfwCreateWindow fuel 0 with ⟨t, o⟩
      cases o <;> simp
    obtain ⟨rest, hrest⟩ := hfront
    obtain ⟨mid, hmid⟩ := front_before_split (.glDrawArrays mode first count) _ rest pre post
      (hrest.symm.trans hsplit) (by simp [startTrace, bufferingTrace])
    refine ⟨program, rfl, ⟨mid, hmid⟩, ?_, ?_, ?_, ?_, ?_, ?_, ?_⟩ <;>
      simp [hmid, bufferingTrace]

theorem draw_preceded_by_setup_witness :
    (Run envOk 5).trace =
      (startTrace envOk ++ bufferingTrace envOk ++
        [.CreateShader, .glUseProgram 3, .glfwWindowShouldClose 77,
         .glClear GL_COLOR_BUFFER_BIT]) ++
      .glDrawArrays GL_TRIANGLES 0 3 ::
        ([.glfwSwapBuffers 77, .glfwPollEvents] ++ passes 77 1 ++
          [.glfwWindowShouldClose 77, .glDeleteProgram 3, .glfwTerminate]) ∧
    ∃ program, envOk.CreateShader = .ok program ∧
      (∃ mid, startTrace envOk ++ bufferingTrace envOk ++
          [.CreateShader, .glUseProgram 3, .glfwWindowShouldClose 77,
           .glClear GL_COLOR_BUFFER_BIT] =
        startTrace envOk ++ bufferingTrace envOk ++
          [.CreateShader, .glUseProgram program] ++ mid) :=
  have hsplit : (Run envOk 5).trace =
      (startTrace envOk ++ bufferingTrace envOk ++
        [.CreateShader, .glUseProgram 3, .glfwWindowShouldClose 77,
         .glClear GL_COLOR_BUFFER_BIT]) ++
      .glDrawArrays GL_TRIANGLES 0 3 ::
        ([.glfwSwapBuffers 77, .glfwPollEvents] ++ passes 77 1 ++
          [.glfwWindowShouldClose 77, .glDeleteProgram 3, .glfwTerminate]) := by decide
  have h := draw_preceded_by_setup envOk 5 _ _ GL_TRIANGLES 0 3 hsplit
  ⟨hsplit, h.elim fun program hp => ⟨program, hp.1, hp.2.1⟩⟩

/-- C7: after a successful bootstrap (shader included) in which the close signal is
eventually answered true, every run with enough budget returns 0 and its trace ends with
`glDeleteProgram(program)` immediately followed by `glfwTerminate`, for the program
`CreateShader` returned; `glfwTerminate` occurs exactly once, and nothing at all (so no
call on the window and no GL call) comes after it. -/
theorem shutdown_deletes_then_terminates (env : Env) (program : Nat)
    (hInit : env.glfwInit ≠ 0) (hWindow : env.glfwCreateWindow ≠ NULL)
    (hGlew : env.glewInit = GLEW_OK) (hShader : env.CreateShader = .ok program)
    (hclose : ∃ n, env.glfwWindowShouldClose n = true) :
    ∃ fuel₀, ∀ fuel, fuel₀ ≤ fuel →
      (Run env fuel).outcome = .returned 0 ∧
      (∃ init, (Run env fuel).trace = init ++ [.glDeleteProgram program, .glfwTerminate]) ∧
      (fns (Run env fuel).trace).count .glfwTerminate = 1 ∧
      (∀ before after, (Run env fuel).trace = before ++ .glfwTerminate :: after →
        after = []) := by
  refine ⟨Nat.find hclose + 1, fun fuel hfuel => ?_⟩
  have hrun := Run_closes env (Nat.find hclose) fuel program hInit hWindow hGlew hShader
    (fun i hi => by simpa using Nat.find_min hclose hi) (Nat.find_spec hclose) (by omega)
  have hcount : (fns (Run env fuel).trace).count .glfwTerminate = 1 := by
    rw [hrun]
    simp only [fns, List.map_append, List.count_append]
    have := count_passes env.glfwCreateWindow .glfwTerminate (Nat.find hclose)
    simp only [fns] at this
    rw [this]
    simp [startTrace, bufferingTrace, iteration, Event.fn]
  refine ⟨by rw [hrun], ⟨startTrace env ++ bufferingTrace env ++
    [.CreateShader, .glUseProgram program] ++ passes env.glfwCreateWindow (Nat.find hclose) ++
    [.glfwWindowShouldClose env.glfwCreateWindow], by rw [hrun]; simp⟩, hcount, ?_⟩
  intro before after hsplit
  rw [hsplit] at hcount
  simp [fns, Event.fn, List.count_append] at hcount
  have hnot : Fn.glfwTerminate ∉ List.map Event.fn after :=
    List.count_eq_zero.mp (by omega)
  have hlast : (Run env fuel).trace.getLast? = some .glfwTerminate := by
    simp only [hrun]
    rw [List.getLast?_append_of_ne_nil _ (by simp)]
    rfl
  rw [hsplit] at hlast
  cases hafter : after with
  | nil => rfl
  | cons a rest =>
    exfalso
    have hne : Event.glfwTerminate :: after ≠ [] := by simp
    rw [List.getLast?_append_of_ne_nil _ hne, hafter] at hlast
    rw [List.getLast?_cons_cons] at hlast
    have hin : Event.glfwTerminate ∈ a :: rest := List.mem_of_getLast?_eq_some hlast
    rw [hafter] at hnot
    exact hnot (List.mem_map.mpr ⟨_, hin, rfl⟩)

theorem shutdown_deletes_then_terminates_witness :
    ∃ fuel₀, ∀ fuel, fuel₀ ≤ fuel →
      (Run envOk fuel).outcome = .returned 0 ∧
      (∃ init, (Run envOk fuel).trace = init ++ [.glDeleteProgram 3, .glfwTerminate]) ∧
      (fns (Run envOk fuel).trace).count .glfwTerminate = 1 ∧
      (∀ before after, (Run envOk fuel).trace = before ++ .glfwTerminate :: after →
        after = []) :=
  shutdown_deletes_then_terminates envOk 3 (by decide) (by decide) (by decide) rfl ⟨2, by decide⟩

/-! ## Geometry upload -/

/-- C8: on a successful bootstrap the geometry phase is, in this order,
`glGenBuffers(1, &buffer)`, `glBindBuffer(GL_ARRAY_BUFFER, buffer)`,
`glBufferData(GL_ARRAY_BUFFER, 24, positions, GL_STATIC_DRAW)`,
`glEnableVertexAttribArray(0)`, `glVertexAttribPointer(0, 2, GL_FLOAT, GL_FALSE, 8, 0)`;
each of these functions but `glBindBuffer` is called exactly once in the run; the
uploaded array has 6 floats, 24 = 6 * sizeof(float) bytes, stride 8 = 2 * sizeof(float),
and read as `(x, y)` pairs its values are (-0.5, -0.5), (0.0, 0.5), (0.5, -0.5). -/
theorem geometry_upload (env : Env) (fuel : Nat)
    (hInit : env.glfwInit ≠ 0) (hWindow : env.glfwCreateWindow ≠ NULL)
    (hGlew : env.glewInit = GLEW_OK) :
    (∃ pre post, (Run env fuel).trace = pre ++
      [.glGenBuffers 1, .glBindBuffer GL_ARRAY_BUFFER env.glGenBuffers,
       .glBufferData GL_ARRAY_BUFFER 24 positions GL_STATIC_DRAW,
       .glEnableVertexAttribArray 0,
       .glVertexAttribPointer 0 2 GL_FLOAT GL_FALSE 8 0] ++ post) ∧
    (fns (Run env fuel).trace).count .glGenBuffers = 1 ∧
    (fns (Run env fuel).trace).count .glBufferData = 1 ∧
    (fns (Run env fuel).trace).count .glEnableVertexAttribArray = 1 ∧
    (fns (Run env fuel).trace).count .glVertexAttribPointer = 1 ∧
    positions.length = 6 ∧ 6 * sizeofFloat = 24 ∧ sizeofFloat * 2 = 8 ∧ GL_FALSE = 0 ∧
    vertices positions = [(-1/2, -1/2), (0, 1/2), (1/2, -1/2)] := by
  obtain ⟨rest, hrest, hfn⟩ := Run_bootstrapped env fuel hInit hWindow hGlew
  have hzero : ∀ f, f ∉ [Fn.glUseProgram, .glfwWindowShouldClose, .glClear,
      .glDrawArrays, .glfwSwapBuffers, .glfwPollEvents, .glDeleteProgram, .glfwTerminate] →
      (fns rest).count f = 0 := by
    intro f hf
    apply List.count_eq_zero.mpr
    intro hmem
    obtain ⟨e, he, rfl⟩ := List.mem_map.mp hmem
    exact hf (hfn e he)
  have hcount : ∀ f, (fns (Run env fuel).trace).count f =
      (fns (startTrace env ++ bufferingTrace env ++ [.CreateShader])).count f +
        (fns rest).count f := by
    intro f
    rw [hrest]
    simp only [fns, List.map_append, List.map_cons, List.count_append, List.count_cons,
      List.map_nil, List.count_nil]
    omega
  refine ⟨⟨startTrace env ++ [.glfwInit,
      .log .AUMPluginDebug "GLFW initialized." [],
      .glfwCreateWindow 640 480 "GLFW Init" NULL NULL,
      .log .AUMPluginDebug "Window using GLFW initialized." [],
      .glfwMakeContextCurrent env.glfwCreateWindow,
      .glGetIntegerv GL_MAJOR_VERSION,
      .glGetIntegerv GL_MAJOR_VERSION,
      .log .AUMPluginDebug "GL version: {0}.{1}."
        [.int (env.glGetIntegerv GL_MAJOR_VERSION), .int (env.glGetIntegerv GL_MAJOR_VERSION)],
      .glewInit,
      .log .AUMPluginDebug "Glew initialized." []],
      .glBindBuffer GL_ARRAY_BUFFER 0 :: .CreateShader :: rest, ?_⟩, ?_, ?_, ?_, ?_,
      rfl, rfl, rfl, rfl, ?_⟩
  · rw [hrest]
    simp [bufferingTrace, sizeofFloat]
  · rw [hcount, hzero _ (by decide)]
    simp [fns, startTrace, bufferingTrace, Event.fn]
  · rw [hcount, hzero _ (by decide)]
    simp [fns, startTrace, bufferingTrace, Event.fn]
  · rw [hcount, hzero _ (by decide)]
    simp [fns, startTrace, bufferingTrace, Event.fn]
  · rw [hcount, hzero _ (by decide)]
    simp [fns, startTrace, bufferingTrace, Event.fn]
  · simp [vertices, positions, FloatLit.toRat]
    norm_num

theorem geometry_upload_witness :
    (fns (Run envOk 5).trace).count .glGenBuffers = 1 ∧
    (fns (Run envOk 5).trace).count .glBufferData = 1 ∧
    vertices positions = [(-1/2, -1/2), (0, 1/2), (1/2, -1/2)] :=
  have h := geometry_upload envOk 5 (by decide) (by decide) (by decide)
  ⟨h.2.1, h.2.2.1, h.2.2.2.2.2.2.2.2.2⟩

/-! ## Version report -/

/-- C9, evaluated on the code: on a context of version 4.6 `InitializeGLFW` succeeds,
makes the window current, then queries `GL_MAJOR_VERSION` twice and never
`GL_MINOR_VERSION`; the line it writes is "GL version: 4.4.", not "GL version: 4.6.". -/
theorem version_report_repeats_major :
    envOk.glGetIntegerv GL_MAJOR_VERSION = 4 ∧ envOk.glGetIntegerv GL_MINOR_VERSION = 6 ∧
    InitializeGLFW envOk =
      ⟨[.glfwInit, .log .AUMPluginDebug "GLFW initialized." [],
        .glfwCreateWindow 640 480 "GLFW Init" NULL NULL,
        .log .AUMPluginDebug "Window using GLFW initialized." [],
        .glfwMakeContextCurrent 77,
        .glGetIntegerv GL_MAJOR_VERSION, .glGetIntegerv GL_MAJOR_VERSION,
        .log .AUMPluginDebug "GL version: {0}.{1}." [.int 4, .int 4]],
       .returned 77⟩ ∧
    Event.glGetIntegerv GL_MINOR_VERSION ∉ (InitializeGLFW envOk).trace ∧
    logLines (InitializeGLFW envOk).trace =
      ["GLFW initialized.", "Window using GLFW initialized.", "GL version: 4.4."] ∧
    "GL version: 4.6." ∉ logLines (InitializeGLFW envOk).trace := by
  decide

/-! ## Shader failure -/

/-- C10: after a successful bootstrap, whatever `CreateShader` throws (a bootstrap error
code included) leaves `Run` uncaught: the outcome is that exception, not the value 0 of
the handler; no error line is written; and the trace has no `glUseProgram`, `glClear`,
`glDrawArrays`, `glfwSwapBuffers`, `glDeleteProgram` or `glfwTerminate`. -/
theorem shaderFailure_uncaught (env : Env) (fuel : Nat) (e : Thrown)
    (hInit : env.glfwInit ≠ 0) (hWindow : env.glfwCreateWindow ≠ NULL)
    (hGlew : env.glewInit = GLEW_OK) (hShader : env.CreateShader = .error e) :
    (Run env fuel).outcome = .thrown e ∧
    (Run env fuel).outcome ≠ .returned 0 ∧
    errorLogs (Run env fuel).trace = [] ∧
    (∀ f, f ∈ [Fn.glUseProgram, .glClear, .glDrawArrays, .glfwSwapBuffers,
      .glDeleteProgram, .glfwTerminate] → f ∉ fns (Run env fuel).trace) ∧
    (Run env fuel).trace.getLast? = some .CreateShader := by
  rw [Run_shaderFail env fuel e hInit hWindow hGlew hShader]
  refine ⟨rfl, by simp, by simp [errorLogs, startTrace, bufferingTrace], ?_, by simp⟩
  intro f hf
  simp at hf
  rcases hf with rfl | rfl | rfl | rfl | rfl | rfl <;>
    simp [fns, startTrace, bufferingTrace, Event.fn]

theorem shaderFailure_uncaught_witness :
    envShaderFail.CreateShader = .error (.code .GLFW) ∧
    (Run envShaderFail 5).outcome = .thrown (.code .GLFW) ∧
    (Run envShaderFail 5).outcome ≠ .returned 0 ∧
    errorLogs (Run envShaderFail 5).trace = [] :=
  have h := shaderFailure_uncaught envShaderFail 5 (.code .GLFW) (by decide) (by decide)
    (by decide) rfl
  ⟨rfl, h.1, h.2.1, h.2.2.1⟩

end AUMGraphics
